/-
  Verification of the ModularTracker radar tracking repository.

  Shallow embedding of the C++ sources into Lean 4:
  * `Point3D` and the spherical/Cartesian conversions of
    `tools/simulator/RadarSimulator.cpp`;
  * the simulator's target propagation and detection constructors;
  * a YAML model for `utils/ConfigManager.cpp`;
  * the task-queue state of `core/ThreadPool`;
  * the metric table of `utils/PerformanceMonitor.cpp`;
  * the exit paths of `src/main.cpp`;
  * the track-birth policy of the track manager.

  Doubles are modelled as real numbers; `std::atan2`, `std::asin`,
  `std::sqrt` become their exact mathematical counterparts.
-/
import Mathlib

open Real

namespace radar_tracking

/-- Embeds `struct Point3D` of `include/core/DataTypes.hpp` (fields x, y, z). -/
structure Point3D where
  x : ℝ
  y : ℝ
  z : ℝ

/-- Embeds `Point3D::operator+`. -/
def Point3D.add (p q : Point3D) : Point3D :=
  ⟨p.x + q.x, p.y + q.y, p.z + q.z⟩

instance : Add Point3D := ⟨Point3D.add⟩

/-- Embeds `Point3D::operator-`. -/
def Point3D.sub (p q : Point3D) : Point3D :=
  ⟨p.x - q.x, p.y - q.y, p.z - q.z⟩

instance : Sub Point3D := ⟨Point3D.sub⟩

/-- Embeds `Point3D::operator*(double scalar)`. -/
def Point3D.smul (p : Point3D) (s : ℝ) : Point3D :=
  ⟨p.x * s, p.y * s, p.z * s⟩

instance : HMul Point3D ℝ Point3D := ⟨Point3D.smul⟩

/-- Embeds `Point3D::magnitude`: `std::sqrt(x*x + y*y + z*z)`. -/
noncomputable def Point3D.magnitude (p : Point3D) : ℝ :=
  Real.sqrt (p.x * p.x + p.y * p.y + p.z * p.z)

/-- Mathematical model of C `std::atan2(y, x)`: the angle in `(-π, π]` of the
point `(x, y)`, by the usual quadrant case split. -/
noncomputable def atan2 (y x : ℝ) : ℝ :=
  if 0 < x then arctan (y / x)
  else if x < 0 ∧ 0 ≤ y then arctan (y / x) + π
  else if x < 0 ∧ y < 0 then arctan (y / x) - π
  else if x = 0 ∧ 0 < y then π / 2
  else if x = 0 ∧ y < 0 then -(π / 2)
  else 0

namespace RadarSimulator

/-- Result of `RadarSimulator::cartesianToSpherical`, which returns range,
azimuth and elevation through out-parameters. -/
structure Spherical where
  range : ℝ
  azimuth : ℝ
  elevation : ℝ

/-- Embeds `RadarSimulator::sphericalToCartesian` (RadarSimulator.cpp:339):
`x = r cos el cos az`, `y = r cos el sin az`, `z = r sin el`. -/
noncomputable def sphericalToCartesian (range azimuth elevation : ℝ) : Point3D :=
  { x := range * Real.cos elevation * Real.cos azimuth
    y := range * Real.cos elevation * Real.sin azimuth
    z := range * Real.sin elevation }

/-- Embeds `RadarSimulator::cartesianToSpherical` (RadarSimulator.cpp:333):
range is the magnitude, azimuth is `atan2(y, x)`, elevation `asin(z / range)`. -/
noncomputable def cartesianToSpherical (cartesian : Point3D) : Spherical :=
  { range := cartesian.magnitude
    azimuth := atan2 cartesian.y cartesian.x
    elevation := Real.arcsin (cartesian.z / cartesian.magnitude) }

end RadarSimulator

open scoped Classical

namespace RadarSimulator

/-- Embeds `struct SimulatedTarget` of `tools/simulator/RadarSimulator.hpp`
(the creation-time field is irrelevant to the simulation kinematics). -/
structure SimulatedTarget where
  target_id : ℕ
  position : Point3D
  velocity : Point3D
  acceleration : Point3D
  rcs : ℝ
  is_active : Bool

/-- Embeds the loop body of `RadarSimulator::updateTargets`
(RadarSimulator.cpp:205-219) for one target: inactive targets are skipped;
an active target moves by `v·dt + a·(0.5·dt²)`, accelerates by `a·dt`, and is
deactivated when the new position's magnitude exceeds `max_range_km * 1000`. -/
noncomputable def updateTarget (dt max_range_km : ℝ) (t : SimulatedTarget) :
    SimulatedTarget :=
  if t.is_active = false then t
  else
    let pos := t.position + t.velocity * dt + t.acceleration * (0.5 * dt * dt)
    let vel := t.velocity + t.acceleration * dt
    let range := pos.magnitude
    { t with
      position := pos
      velocity := vel
      is_active := if range > max_range_km * 1000.0 then false else t.is_active }

/-- Embeds `RadarSimulator::updateTargets`: the loop over the target list. -/
noncomputable def updateTargets (dt max_range_km : ℝ)
    (targets : List SimulatedTarget) : List SimulatedTarget :=
  targets.map (updateTarget dt max_range_km)

/-- Embeds `struct RadarDetection` of `include/core/DataTypes.hpp`
(timestamp omitted: both constructors under study leave it at the default). -/
structure RadarDetection where
  position : Point3D
  velocity : Point3D
  range : ℝ
  azimuth : ℝ
  elevation : ℝ
  snr : ℝ
  rcs : ℝ
  beam_id : ℕ
  detection_id : ℕ

/-- Embeds `RadarSimulator::addNoise`; the three draws of the normal
distribution `noise_dist_` become the explicit arguments `n1 n2 n3`. -/
def addNoise (n1 n2 n3 : ℝ) (point : Point3D) (noise_level : ℝ) : Point3D :=
  { x := point.x + n1 * noise_level
    y := point.y + n2 * noise_level
    z := point.z + n3 * noise_level }

/-- Model of C `std::log10`. -/
noncomputable def log10 (x : ℝ) : ℝ := Real.log x / Real.log 10

/-- Embeds `RadarSimulator::createDetection` (RadarSimulator.cpp:293-309).
The six normal draws used by the two `addNoise` calls are passed explicitly;
`noise_level` is `scenario_.noise_level` and `total` is
`total_detections_generated_`. -/
noncomputable def createDetection (noise_level : ℝ) (n1 n2 n3 n4 n5 n6 : ℝ)
    (total : ℕ) (target : SimulatedTarget) : RadarDetection :=
  let pos := addNoise n1 n2 n3 target.position noise_level
  let vel := addNoise n4 n5 n6 target.velocity (noise_level * 0.1)
  let sph := cartesianToSpherical pos
  { position := pos
    velocity := vel
    range := sph.range
    azimuth := sph.azimuth
    elevation := sph.elevation
    snr := 20.0 + 10.0 * log10 target.rcs - 40.0 * log10 (sph.range / 1000.0)
    rcs := target.rcs
    beam_id := 1
    detection_id := total + 1 }

/-- Embeds `RadarSimulator::createClutterDetection` (RadarSimulator.cpp:311-331).
The five `uniform_dist_` draws (position triple, SNR, RCS) become `u1..u5`;
`max_range_km` and `elevation_fov_deg` come from `scenario_.radar_params`. -/
noncomputable def createClutterDetection (max_range_km elevation_fov_deg : ℝ)
    (u1 u2 u3 u4 u5 : ℝ) (total : ℕ) : RadarDetection :=
  let range := u1 * max_range_km * 1000.0
  let azimuth := u2 * 2.0 * π
  let elevation := (u3 - 0.5) * elevation_fov_deg * π / 180.0
  { position := sphericalToCartesian range azimuth elevation
    velocity := ⟨0, 0, 0⟩
    range := range
    azimuth := azimuth
    elevation := elevation
    snr := 5.0 + u4 * 10.0
    rcs := 0.1 + u5 * 0.5
    beam_id := 1
    detection_id := total + 1 }

end RadarSimulator

/-- Model of a yaml-cpp `YAML::Node`: `undef` is an undefined (zombie) node as
returned by a failed map lookup; the others are the defined node kinds. -/
inductive Yaml where
  | undef : Yaml
  | null : Yaml
  | scalar : String → Yaml
  | seq : List Yaml → Yaml
  | map : List (String × Yaml) → Yaml

/-- Model of `YAML::Node::IsDefined` (also `operator bool`). -/
def Yaml.defined : Yaml → Bool
  | .undef => false
  | _ => true

/-- Model of `YAML::Node::IsNull`. -/
def Yaml.isNull : Yaml → Bool
  | .null => true
  | _ => false

/-- Model of yaml-cpp `node[key]` with a string key: map lookup (first match,
undefined when absent); undefined and null nodes yield undefined; subscripting
a scalar or sequence node throws (`Except.error`, the thrown exception). -/
def Yaml.index : Yaml → String → Except Unit Yaml
  | .undef, _ => .ok .undef
  | .null, _ => .ok .undef
  | .scalar _, _ => .error ()
  | .seq _, _ => .error ()
  | .map kvs, k =>
    .ok (match kvs.lookup k with
      | some v => v
      | none => .undef)

/-- Model of yaml-cpp `as<std::string>`: succeeds exactly on scalar nodes. -/
def Yaml.asString : Yaml → Option String
  | .scalar s => some s
  | _ => none

/-- Decimal digit accumulation for the integer conversion model. -/
def digitsToNat (acc : ℕ) : List Char → Option ℕ
  | [] => some acc
  | c :: cs =>
    if c.isDigit then digitsToNat (acc * 10 + (c.toNat - 48)) cs else none

/-- Model of yaml-cpp `as<int>` (a `stringstream` read): a scalar whose text
is a decimal integer, optionally signed; everything else fails to convert. -/
def Yaml.asInt : Yaml → Option Int
  | .scalar s =>
    match s.data with
    | [] => none
    | c :: cs =>
      if c = '-' then
        if cs = [] then none
        else (digitsToNat 0 cs).map (fun n => -(n : Int))
      else (digitsToNat 0 (c :: cs)).map (fun n => (n : Int))
  | _ => none

namespace ConfigManager

/-- Embeds the split-and-recurse loop of `ConfigManager::getValueFromPath`
(ConfigManager.cpp:92-112): `acc` accumulates the current component up to the
next dot (the `path.find('.')` / `substr` pair of the source). Hitting a dot
looks up the component, which must be a defined child (else the
`runtime_error` is thrown, `Except.error`); an exhausted remainder after a
dot is the source's empty-path base case; a remainder without any dot is the
final component, returned as a plain (possibly undefined) lookup. -/
def getPathGo (node : Yaml) (acc : List Char) : List Char → Except Unit Yaml
  | [] => node.index (String.mk acc.reverse)
  | c :: cs =>
    if c = '.' then
      match node.index (String.mk acc.reverse) with
      | .error e => .error e
      | .ok child =>
        if child.defined then
          if cs = [] then .ok child else getPathGo child [] cs
        else .error ()
    else getPathGo node (acc ++ [c]) cs

/-- Embeds `ConfigManager::getValueFromPath` on a string path: the empty path
returns the node itself. -/
def getValueFromPath (node : Yaml) (path : String) : Except Unit Yaml :=
  if path.data = [] then .ok node else getPathGo node [] path.data

/-- Embeds the two-argument `ConfigManager::get<T>(key, default_value)`
(ConfigManager.hpp:34-45). The yaml-cpp conversion `as<T>` is a parameter
`conv`; a `none` conversion models the thrown `BadConversion`, which the
`catch (...)` turns into the default. -/
def get {α : Type} (conv : Yaml → Option α) (config : Yaml) (key : String)
    (default_value : α) : α :=
  match getValueFromPath config key with
  | .error _ => default_value
  | .ok node =>
    if node.defined && !node.isNull then
      match conv node with
      | some v => v
      | none => default_value
    else default_value

/-- Embeds `ConfigManager::validateConfig` (ConfigManager.cpp:31-77) before
its surrounding `catch`: `Except.error` is a thrown exception; checks appear
in source order (sections, system fields, tracking mode, algorithm
subsections). -/
def validateConfigE (config : Yaml) : Except Unit Bool :=
  match config.index ("system") with
  | .error e => .error e
  | .ok sys =>
    if sys.defined = false then .ok false
    else
      match config.index ("algorithms") with
      | .error e => .error e
      | .ok alg =>
        if alg.defined = false then .ok false
        else
          match config.index ("communication") with
          | .error e => .error e
          | .ok comm =>
            if comm.defined = false then .ok false
            else
              match sys.index ("tracking_mode") with
              | .error e => .error e
              | .ok tm =>
                match sys.index ("max_tracks") with
                | .error e => .error e
                | .ok mt =>
                  match sys.index ("update_rate_hz") with
                  | .error e => .error e
                  | .ok ur =>
                    if tm.defined = false || mt.defined = false ||
                        ur.defined = false then .ok false
                    else
                      match tm.asString with
                      | none => .error ()
                      | some mode =>
                        if mode ≠ "TWS" ∧ mode ≠ "BEAM_REQUEST" then .ok false
                        else
                          match alg.index ("clustering") with
                          | .error e => .error e
                          | .ok cl =>
                            match alg.index ("association") with
                            | .error e => .error e
                            | .ok asso =>
                              match alg.index ("tracking") with
                              | .error e => .error e
                              | .ok tr =>
                                if cl.defined = false || asso.defined = false
                                    || tr.defined = false then .ok false
                                else .ok true

/-- `ConfigManager::validateConfig` with its `catch`: exceptions become
`false`. -/
def validateConfig (config : Yaml) : Bool :=
  match validateConfigE config with
  | .ok b => b
  | .error _ => false

/-- Embeds `ConfigManager::loadConfig` (ConfigManager.cpp:10-22): the
`YAML::LoadFile` outcome is the argument (`none` = parse/IO exception, caught
and turned into `false`); on success the parsed root is validated. -/
def loadConfig : Option Yaml → Bool
  | none => false
  | some c => validateConfig c

/-- Does `c.index k` produce a defined node (no exception, not undefined)? -/
def resolvesDefined (c : Yaml) (k : String) : Bool :=
  match c.index k with
  | .ok n => n.defined
  | .error _ => false

/-- Claim-side predicate: the three required top-level sections exist. -/
def hasSections (c : Yaml) : Bool :=
  resolvesDefined c ("system") && resolvesDefined c ("algorithms") &&
    resolvesDefined c ("communication")

/-- Claim-side predicate: the required `system` fields exist. -/
def hasSysFields (c : Yaml) : Bool :=
  match c.index ("system") with
  | .ok sys =>
    resolvesDefined sys ("tracking_mode") && resolvesDefined sys ("max_tracks")
      && resolvesDefined sys ("update_rate_hz")
  | .error _ => false

/-- Claim-side predicate: `system.tracking_mode` is the string `TWS` or
`BEAM_REQUEST`. -/
def trackingModeOk (c : Yaml) : Bool :=
  match c.index ("system") with
  | .error _ => false
  | .ok sys =>
    match sys.index ("tracking_mode") with
    | .error _ => false
    | .ok tm =>
      match tm.asString with
      | none => false
      | some mode => mode == "TWS" || mode == "BEAM_REQUEST"

/-- Claim-side predicate: the required `algorithms` subsections exist. -/
def hasAlgoSubs (c : Yaml) : Bool :=
  match c.index ("algorithms") with
  | .ok alg =>
    resolvesDefined alg ("clustering") && resolvesDefined alg ("association")
      && resolvesDefined alg ("tracking")
  | .error _ => false

/-- Claim-side validity: conjunction of the conditions listed by the spec for
a configuration to be accepted. -/
def validConfigSpec (c : Yaml) : Bool :=
  hasSections c && hasSysFields c && trackingModeOk c && hasAlgoSubs c

end ConfigManager

namespace ThreadPool

/-- The queue-relevant state of a `ThreadPool` (`core/ThreadPool.hpp`):
the pending task queue and the atomic stop flag. -/
structure State (τ : Type) where
  tasks : List τ
  stop : Bool

/-- Embeds `ThreadPool::enqueue` (ThreadPool.hpp:36-57): under the queue lock,
a stopped pool throws `runtime_error` (`Except.error`) and the queue is
untouched; otherwise the task is appended. The returned pair is
(thrown-or-ok, state of the pool after the call). -/
def enqueue {τ : Type} (s : State τ) (task : τ) : Except Unit Unit × State τ :=
  if s.stop then (.error (), s)
  else (.ok (), { s with tasks := s.tasks ++ [task] })

/-- Interleaving state of the pool together with its execution history:
`executed` is the sequence of tasks workers have popped and run,
`enqueued` the sequence accepted by `enqueue`. -/
structure Trace where
  tasks : List ℕ
  stop : Bool
  executed : List ℕ
  enqueued : List ℕ

/-- One atomic step of the pool under the queue mutex, from the code:
`enqueue` appends only while the stop flag is unset (ThreadPool.hpp:49-53);
the destructor sets the flag (ThreadPool.cpp:39); a worker pops the queue
front and runs it (ThreadPool.cpp:15-24). -/
inductive Step : Trace → Trace → Prop
  | enqueue (s : Trace) (t : ℕ) (h : s.stop = false) :
      Step s { s with tasks := s.tasks ++ [t], enqueued := s.enqueued ++ [t] }
  | requestStop (s : Trace) :
      Step s { s with stop := true }
  | runTask (s : Trace) (t : ℕ) (rest : List ℕ) (h : s.tasks = t :: rest) :
      Step s { s with tasks := rest, executed := s.executed ++ [t] }

/-- Reachability through pool steps. -/
def Reach : Trace → Trace → Prop := Relation.ReflTransGen Step

/-- The freshly constructed pool (ThreadPool.cpp:5): empty queue, flag unset. -/
def initTrace : Trace := ⟨[], false, [], []⟩

/-- The worker-loop exit guard (ThreadPool.cpp:15): a worker returns exactly
when the stop flag is set and the queue is empty. -/
def workerExits (s : Trace) : Bool := s.stop && s.tasks.isEmpty

end ThreadPool

namespace PerformanceMonitor

/-- Largest finite `double`, the initial `min_time_ms`
(`std::numeric_limits<double>::max()`). -/
def dblMax : ℚ := 2 ^ 1024 - 2 ^ 971

/-- Embeds `PerformanceMonitor::PerformanceMetric`
(PerformanceMonitor.hpp:15-23); times are rationals standing for doubles. -/
structure PerformanceMetric where
  name : String
  start_time : ℚ
  total_time : ℚ
  call_count : ℕ
  average_time_ms : ℚ
  min_time_ms : ℚ
  max_time_ms : ℚ
deriving DecidableEq

/-- The default-constructed metric. -/
def emptyMetric : PerformanceMetric :=
  { name := "", start_time := 0, total_time := 0, call_count := 0,
    average_time_ms := 0, min_time_ms := dblMax, max_time_ms := 0 }

/-- The metric table `metrics_`, an association list standing for the
`unordered_map` (keys unique, order irrelevant to lookup). -/
abbrev Metrics := List (String × PerformanceMetric)

/-- Replaces the value of the first entry with the given key, as writing
through an `unordered_map` iterator does. -/
def setEntry (name : String) (m : PerformanceMetric) : Metrics → Metrics
  | [] => []
  | (k, v) :: rest =>
    if k = name then (k, m) :: rest else (k, v) :: setEntry name m rest

/-- Embeds `PerformanceMonitor::startTiming` (PerformanceMonitor.cpp:10-16):
`metrics_[name]` default-constructs a missing entry, then the name and start
time are stored. -/
def startTiming (now : ℚ) (name : String) (ms : Metrics) : Metrics :=
  match ms.lookup name with
  | some m => setEntry name { m with name := name, start_time := now } ms
  | none => ms ++ [(name, { emptyMetric with name := name, start_time := now })]

/-- Embeds `PerformanceMonitor::endTiming` (PerformanceMonitor.cpp:18-39):
a missing entry returns immediately; otherwise the found entry's counters are
updated in place. `end_time` is the clock reading taken on entry. -/
def endTiming (end_time : ℚ) (name : String) (ms : Metrics) : Metrics :=
  match ms.lookup name with
  | none => ms
  | some m =>
    let duration := end_time - m.start_time
    let total := m.total_time + duration
    let cc := m.call_count + 1
    setEntry name
      { m with
        total_time := total
        call_count := cc
        min_time_ms := min m.min_time_ms duration
        max_time_ms := max m.max_time_ms duration
        average_time_ms := total / (cc : ℚ) } ms

end PerformanceMonitor

/-- Embeds `enum class TrackState` of `include/core/DataTypes.hpp`. -/
inductive TrackState where
  | TENTATIVE
  | CONFIRMED
  | COASTING
  | TERMINATED
deriving DecidableEq

/-- Embeds `struct TrackManagementConfig` of `include/core/DataTypes.hpp`
(lines 179-185). -/
structure TrackManagementConfig where
  confirmation_threshold : ℕ
  deletion_threshold : ℕ
  max_coast_time_sec : ℚ
  quality_threshold : ℚ
  max_tracks : ℕ

namespace TrackManager

/-- The lifecycle-relevant part of a `Track` held in the manager's table. -/
structure MTrack where
  track_id : ℕ
  state : TrackState
  quality_score : ℚ
deriving DecidableEq

/-- The manager's track table and ID counter (`TrackManager.hpp:16-17`). -/
structure State where
  tracks : List MTrack
  next_track_id : ℕ

/-- Number of non-TERMINATED tracks in a table. -/
def activeCount (ts : List MTrack) : ℕ :=
  (ts.filter (fun t => t.state ≠ TrackState.TERMINATED)).length

/-- Modelled from the spec: `TrackManager::createTrack` is declared in
`include/management/TrackManager.hpp:36` but its implementation is not in the
repository sources, so the birth policy follows spec §4.5: a new TENTATIVE
track is created when the active count is below `max_tracks`; at the cap the
lowest-quality TENTATIVE track is evicted first; with no TENTATIVE track the
birth is dropped. -/
def createTrack (cfg : TrackManagementConfig) (s : State) : State :=
  let newTrack : MTrack :=
    { track_id := s.next_track_id, state := TrackState.TENTATIVE,
      quality_score := 0 }
  if activeCount s.tracks < cfg.max_tracks then
    { tracks := s.tracks ++ [newTrack], next_track_id := s.next_track_id + 1 }
  else
    match ((s.tracks.filter
        (fun t => t.state = TrackState.TENTATIVE)).map
          MTrack.quality_score).min? with
    | none => s
    | some q =>
      { tracks :=
          (s.tracks.eraseP
            (fun t => decide (t.state = TrackState.TENTATIVE ∧
              t.quality_score = q))) ++ [newTrack]
        next_track_id := s.next_track_id + 1 }

end TrackManager

/-- Outcome of `parseCommandLine` (main.cpp:235-279): it returns `false` both
after showing help or version and on a command-line parse error. -/
inductive ParseOutcome where
  | helpOrVersion
  | cliError
  | parsed (validation_mode : Bool) (daemon_mode : Bool)

/-- Embeds the validation-mode checks of `main` (main.cpp:475-510) before the
surrounding `catch`: `getNode` and `operator[]` may throw; a missing field
only clears `config_valid`, the remaining checks still run. -/
def mainValidateChecksE (c : Yaml) : Except Unit Bool :=
  match ConfigManager.getValueFromPath c ("system") with
  | .error e => .error e
  | .ok sys =>
    match sys.index ("tracking_mode") with
    | .error e => .error e
    | .ok tm =>
      match sys.index ("max_tracks") with
      | .error e => .error e
      | .ok mt =>
        match ConfigManager.getValueFromPath c ("algorithms") with
        | .error e => .error e
        | .ok alg =>
          match alg.index ("clustering") with
          | .error e => .error e
          | .ok cl =>
            match alg.index ("association") with
            | .error e => .error e
            | .ok asso =>
              match alg.index ("tracking") with
              | .error e => .error e
              | .ok tr =>
                .ok ((tm.defined && mt.defined) &&
                  (cl.defined && asso.defined && tr.defined))

/-- The validation-mode checks with their `catch`: a thrown exception flips
`config_valid` to false (main.cpp:498-501). -/
def mainValidateChecks (c : Yaml) : Bool :=
  match mainValidateChecksE c with
  | .ok b => b
  | .error _ => false

/-- Environment of one run of `main`: the outcomes of the external calls it
makes, in the order they can occur. -/
structure MainEnv where
  parse : ParseOutcome
  logging_ok : Bool
  config_file_readable : Bool
  config_parsed : Option Yaml
  daemonize_ok : Bool
  radar_init_ok : Bool
  fatal_exception : Bool

/-- Embeds the control flow of `main` (main.cpp:434-609) on non-Windows,
non-service paths, abstracting each external call through `MainEnv`:
help/version and CLI errors return 0 (main.cpp:446); failures of logging
setup, config readability, `loadConfig`, daemonization, and
`RadarSystem::initialize` return -1; validation mode returns 0 or -1 by its
checks; a fatal exception reaching main's catch returns -1; otherwise the
run loop ends in a clean shutdown returning 0. -/
def mainExitCode (env : MainEnv) : Int :=
  match env.parse with
  | .helpOrVersion => 0
  | .cliError => 0
  | .parsed vmode dmode =>
    if env.logging_ok = false then -1
    else if env.config_file_readable = false then -1
    else if ConfigManager.loadConfig env.config_parsed = false then -1
    else
      match env.config_parsed with
      | none => -1
      | some c =>
        if vmode then (if mainValidateChecks c then 0 else -1)
        else if dmode = true ∧ env.daemonize_ok = false then -1
        else if env.radar_init_ok = false then -1
        else if env.fatal_exception then -1
        else 0

section Atan2Lemmas

/-- On the right half plane `atan2` is the arctangent of the slope. -/
lemma atan2_pos_x {y x : ℝ} (hx : 0 < x) : atan2 y x = arctan (y / x) := by
  simp [atan2, hx]

/-- Scaling both arguments by a positive factor leaves `atan2` unchanged. -/
lemma atan2_smul {y x k : ℝ} (hk : 0 < k) : atan2 (k * y) (k * x) = atan2 y x := by
  have hky : k * y / (k * x) = y / x := by
    rcases eq_or_ne x 0 with hx0 | hx0
    · simp [hx0]
    · field_simp
      ring
  unfold atan2
  have hxiff : 0 < k * x ↔ 0 < x := by
    constructor
    · intro h
      by_contra hle
      push_neg at hle
      nlinarith
    · intro h
      positivity
  have hxiff' : k * x < 0 ↔ x < 0 := by
    constructor
    · intro h
      by_contra hle
      push_neg at hle
      nlinarith
    · intro h
      nlinarith
  have hyiff : 0 ≤ k * y ↔ 0 ≤ y := by
    constructor
    · intro h
      by_contra hle
      push_neg at hle
      nlinarith
    · intro h
      positivity
  have hyiff' : k * y < 0 ↔ y < 0 := by
    constructor
    · intro h
      by_contra hle
      push_neg at hle
      nlinarith
    · intro h
      nlinarith
  have hyiff2 : 0 < k * y ↔ 0 < y := by
    constructor
    · intro h
      by_contra hle
      push_neg at hle
      nlinarith
    · intro h
      positivity
  have hx0iff : k * x = 0 ↔ x = 0 := by
    constructor
    · intro h
      rcases mul_eq_zero.mp h with h | h
      · exact absurd h (ne_of_gt hk)
      · exact h
    · intro h
      simp [h]
  simp only [hky, hxiff, hxiff', hyiff, hyiff', hyiff2, hx0iff]

/-- Recovering the angle: for `θ ∈ (-π, π]`, `atan2 (sin θ) (cos θ) = θ`. -/
lemma atan2_sin_cos {θ : ℝ} (h1 : -π < θ) (h2 : θ ≤ π) :
    atan2 (Real.sin θ) (Real.cos θ) = θ := by
  rcases lt_trichotomy (Real.cos θ) 0 with hc | hc | hc
  · -- cos θ < 0: θ ∈ (-π, -π/2) ∪ (π/2, π]
    have hθ : θ < -(π / 2) ∨ π / 2 < θ := by
      by_contra hcon
      push_neg at hcon
      obtain ⟨ha, hb⟩ := hcon
      have : 0 ≤ Real.cos θ := by
        apply Real.cos_nonneg_of_mem_Icc
        constructor <;> linarith
      linarith
    have htan : Real.sin θ / Real.cos θ = Real.tan θ :=
      (Real.tan_eq_sin_div_cos θ).symm
    rcases hθ with hθ | hθ
    · -- θ ∈ (-π, -π/2): sin θ < 0, branch `arctan - π`
      have hs : Real.sin θ < 0 := by
        apply Real.sin_neg_of_neg_of_neg_pi_lt _ h1
        have := Real.pi_pos
        linarith
      have hbranch : ¬ (0 < Real.cos θ) := by linarith
      have : atan2 (Real.sin θ) (Real.cos θ) = arctan (Real.sin θ / Real.cos θ) - π := by
        simp only [atan2, if_neg hbranch]
        rw [if_neg, if_pos ⟨hc, hs⟩]
        rintro ⟨-, hy⟩
        linarith
      rw [this, htan, ← Real.tan_add_pi, Real.arctan_tan] <;> linarith
    · -- θ ∈ (π/2, π]: sin θ ≥ 0, branch `arctan + π`
      have hs : 0 ≤ Real.sin θ := by
        apply Real.sin_nonneg_of_nonneg_of_le_pi _ h2
        have := Real.pi_pos
        linarith
      have hbranch : ¬ (0 < Real.cos θ) := by linarith
      have : atan2 (Real.sin θ) (Real.cos θ) = arctan (Real.sin θ / Real.cos θ) + π := by
        simp only [atan2, if_neg hbranch]
        rw [if_pos ⟨hc, hs⟩]
      rw [this, htan, ← Real.tan_sub_pi, Real.arctan_tan] <;> linarith
  · -- cos θ = 0: θ = ±π/2
    have hθ : θ = π / 2 ∨ θ = -(π / 2) := by
      rcases (Real.cos_eq_zero_iff).mp hc with ⟨n, hn⟩
      have hpi := Real.pi_pos
      have hncast : θ = (2 * (n : ℝ) + 1) * π / 2 := by exact_mod_cast hn
      have hn1 : (-1 : ℤ) ≤ n := by
        by_contra hcon
        push_neg at hcon
        have hn' : n ≤ -2 := by omega
        have : ((n : ℝ)) ≤ -2 := by exact_mod_cast hn'
        nlinarith
      have hn2 : n ≤ 0 := by
        by_contra hcon
        push_neg at hcon
        have : (1 : ℝ) ≤ (n : ℝ) := by exact_mod_cast hcon
        nlinarith
      interval_cases n <;> push_cast at hncast <;> [right; left] <;> linarith
    rcases hθ with hθ | hθ
    · subst hθ
      norm_num [atan2, Real.cos_pi_div_two, Real.sin_pi_div_two]
    · subst hθ
      norm_num [atan2, Real.cos_neg, Real.sin_neg, Real.cos_pi_div_two,
        Real.sin_pi_div_two]
  · -- cos θ > 0: θ ∈ (-π/2, π/2), plain arctan branch
    have hθ1 : -(π / 2) < θ := by
      by_contra hcon
      push_neg at hcon
      have : Real.cos θ ≤ 0 := by
        rcases eq_or_lt_of_le hcon with h | h
        · rw [h, Real.cos_neg, Real.cos_pi_div_two]
        · have : Real.cos θ < 0 := by
            rw [← Real.cos_neg]
            apply Real.cos_neg_of_pi_div_two_lt_of_lt
            · linarith
            · linarith
          linarith
      linarith
    have hθ2 : θ < π / 2 := by
      by_contra hcon
      push_neg at hcon
      have : Real.cos θ ≤ 0 := by
        rcases eq_or_lt_of_le hcon with h | h
        · rw [← h, Real.cos_pi_div_two]
        · have : Real.cos θ < 0 := by
            apply Real.cos_neg_of_pi_div_two_lt_of_lt h
            have := Real.pi_pos
            linarith
          linarith
      linarith
    rw [atan2_pos_x hc, ← Real.tan_eq_sin_div_cos, Real.arctan_tan hθ1 hθ2]

/-- `atan2` always lands in `(-π, π]`. -/
lemma atan2_mem_Ioc (y x : ℝ) : -π < atan2 y x ∧ atan2 y x ≤ π := by
  have hb := Real.arctan_mem_Ioo (y / x)
  simp only [Set.mem_Ioo] at hb
  have hpi := Real.pi_pos
  unfold atan2
  split_ifs with h1 h2 h3 h4 h5
  · constructor <;> nlinarith [hb.1, hb.2]
  · -- x < 0, 0 ≤ y: the slope is nonpositive, so arctan ≤ 0
    have hyx : y / x ≤ 0 := div_nonpos_of_nonneg_of_nonpos h2.2 (le_of_lt h2.1)
    have harc : arctan (y / x) ≤ 0 := by
      have := Real.arctan_strictMono.monotone hyx
      rwa [Real.arctan_zero] at this
    constructor <;> nlinarith [hb.1, hb.2]
  · -- x < 0, y < 0: the slope is positive, so arctan > 0
    have hyx : 0 < y / x := div_pos_of_neg_of_neg h3.2 h3.1
    have harc : 0 < arctan (y / x) := by
      have := Real.arctan_strictMono hyx
      rwa [Real.arctan_zero] at this
    constructor <;> nlinarith [hb.1, hb.2]
  · constructor <;> nlinarith
  · constructor <;> nlinarith
  · constructor <;> nlinarith

end Atan2Lemmas

section RoundTrip

open RadarSimulator

/-- The magnitude of a point built from spherical coordinates is the range. -/
lemma magnitude_sphericalToCartesian (r A E : ℝ) (hr : 0 ≤ r) :
    (sphericalToCartesian r A E).magnitude = r := by
  unfold sphericalToCartesian Point3D.magnitude
  simp only
  have hsum : r * Real.cos E * Real.cos A * (r * Real.cos E * Real.cos A) +
      r * Real.cos E * Real.sin A * (r * Real.cos E * Real.sin A) +
      r * Real.sin E * (r * Real.sin E) = r ^ 2 := by
    have hA := Real.sin_sq_add_cos_sq A
    have hE := Real.sin_sq_add_cos_sq E
    linear_combination (r ^ 2 * Real.cos E ^ 2) * hA + r ^ 2 * hE
  rw [hsum, Real.sqrt_sq hr]

/-- Full round trip at the component level, on the principal domain. -/
lemma roundtrip_components (r A E : ℝ) (hr : 0 < r) (hA1 : -π < A) (hA2 : A ≤ π)
    (hE1 : -(π / 2) < E) (hE2 : E < π / 2) :
    (cartesianToSpherical (sphericalToCartesian r A E)).range = r ∧
    (cartesianToSpherical (sphericalToCartesian r A E)).azimuth = A ∧
    (cartesianToSpherical (sphericalToCartesian r A E)).elevation = E := by
  have hmag := magnitude_sphericalToCartesian r A E hr.le
  have hcosE : 0 < Real.cos E := by
    apply Real.cos_pos_of_mem_Ioo
    exact ⟨hE1, hE2⟩
  refine ⟨hmag, ?_, ?_⟩
  · show atan2 (r * Real.cos E * Real.sin A) (r * Real.cos E * Real.cos A) = A
    have hk : 0 < r * Real.cos E := mul_pos hr hcosE
    have := atan2_smul (y := Real.sin A) (x := Real.cos A) hk
    rw [mul_assoc, mul_assoc] at *
    rw [this]
    exact atan2_sin_cos hA1 hA2
  · show Real.arcsin ((sphericalToCartesian r A E).z /
      (sphericalToCartesian r A E).magnitude) = E
    rw [hmag]
    unfold sphericalToCartesian
    simp only
    rw [mul_div_cancel_left₀ _ (ne_of_gt hr)]
    exact Real.arcsin_sin hE1.le hE2.le

end RoundTrip

section ClaimC2

open RadarSimulator

/-- C2 counterexample: the claim quantifies over every spherical triple with
`r > 0`, but at `(r, azimuth, elevation) = (1, 2π, 0)` the round trip returns
azimuth `0`, an error of `2π`, far beyond any small tolerance (here: > 1). -/
theorem C2_roundtrip_counterexample :
    (cartesianToSpherical (sphericalToCartesian 1 (2 * π) 0)).azimuth = 0 ∧
    1 < |2 * π - (cartesianToSpherical
      (sphericalToCartesian 1 (2 * π) 0)).azimuth| := by
  have haz : (cartesianToSpherical (sphericalToCartesian 1 (2 * π) 0)).azimuth
      = 0 := by
    show atan2 (1 * Real.cos 0 * Real.sin (2 * π))
      (1 * Real.cos 0 * Real.cos (2 * π)) = 0
    rw [Real.cos_zero, Real.sin_two_pi, Real.cos_two_pi]
    norm_num [atan2, Real.arctan_zero]
  refine ⟨haz, ?_⟩
  rw [haz]
  have := Real.pi_gt_three
  rw [abs_of_pos (by linarith)]
  linarith

/-- C2 (amended): for `r > 0`, azimuth in `(-π, π]` and elevation in
`(-π/2, π/2)` — the principal ranges the conversion itself produces —
`cartesianToSpherical ∘ sphericalToCartesian` is the identity (exactly, in
the real-number model of doubles). -/
theorem C2_spherical_roundtrip (r A E : ℝ) (hr : 0 < r) (hA1 : -π < A)
    (hA2 : A ≤ π) (hE1 : -(π / 2) < E) (hE2 : E < π / 2) :
    cartesianToSpherical (sphericalToCartesian r A E) = ⟨r, A, E⟩ := by
  obtain ⟨h1, h2, h3⟩ := roundtrip_components r A E hr hA1 hA2 hE1 hE2
  have hsplit : cartesianToSpherical (sphericalToCartesian r A E) =
      ⟨(cartesianToSpherical (sphericalToCartesian r A E)).range,
       (cartesianToSpherical (sphericalToCartesian r A E)).azimuth,
       (cartesianToSpherical (sphericalToCartesian r A E)).elevation⟩ := rfl
  rw [hsplit, h1, h2, h3]

/-- Witness for C2: the round trip is exact at `(r, A, E) = (1, 0, 0)`. -/
theorem C2_spherical_roundtrip_witness :
    cartesianToSpherical (sphericalToCartesian 1 0 0) =
      ({ range := 1, azimuth := 0, elevation := 0 } : Spherical) :=
  C2_spherical_roundtrip 1 0 0 one_pos
    (neg_lt_zero.mpr Real.pi_pos) Real.pi_pos.le
    (neg_lt_zero.mpr (half_pos Real.pi_pos)) (half_pos Real.pi_pos)

end ClaimC2

section ClaimC3

open RadarSimulator

/-- C3 counterexample: `createClutterDetection` draws its azimuth as
`u · 2π ∈ [0, 2π)`; with the uniform draw `u2 = 3/4` (and the default radar
parameters) the azimuth is `3π/2 > π`, outside the claimed `[-π, π]`. -/
theorem C3_detection_invariants_counterexample :
    (createClutterDetection 100 90 (1/2) (3/4) (1/2) (1/2) (1/2) 0).azimuth
      = 3 / 2 * π ∧
    π < (createClutterDetection 100 90 (1/2) (3/4) (1/2) (1/2) (1/2)
      0).azimuth := by
  have haz : (createClutterDetection 100 90 (1/2) (3/4) (1/2) (1/2) (1/2)
      0).azimuth = 3 / 2 * π := by
    simp only [createClutterDetection]
    ring
  refine ⟨haz, ?_⟩
  rw [haz]
  have := Real.pi_pos
  linarith

/-- C3 (amended): every detection from `createDetection` satisfies the
Detection invariants (`range ≥ 0`, azimuth in `[-π, π]`, elevation in
`[-π/2, π/2]`, for any target and noise draws); a clutter detection from
`createClutterDetection` satisfies `range ≥ 0` and the elevation bounds
(given in-range uniform draws, a nonnegative max range and an elevation
field of view of at most 180°), but its azimuth lies in `[0, 2π)`, not
`[-π, π]`. -/
theorem C3_detection_invariants :
    (∀ (noise_level n1 n2 n3 n4 n5 n6 : ℝ) (total : ℕ)
        (target : SimulatedTarget),
      0 ≤ (createDetection noise_level n1 n2 n3 n4 n5 n6 total target).range ∧
      -π ≤ (createDetection noise_level n1 n2 n3 n4 n5 n6 total target).azimuth ∧
      (createDetection noise_level n1 n2 n3 n4 n5 n6 total target).azimuth ≤ π ∧
      -(π / 2) ≤ (createDetection noise_level n1 n2 n3 n4 n5 n6 total
        target).elevation ∧
      (createDetection noise_level n1 n2 n3 n4 n5 n6 total target).elevation
        ≤ π / 2) ∧
    (∀ (max_range_km elevation_fov_deg u1 u2 u3 u4 u5 : ℝ) (total : ℕ),
      0 ≤ u1 → 0 ≤ max_range_km → 0 ≤ u2 → u2 < 1 → 0 ≤ u3 → u3 ≤ 1 →
      0 ≤ elevation_fov_deg → elevation_fov_deg ≤ 180 →
      0 ≤ (createClutterDetection max_range_km elevation_fov_deg u1 u2 u3 u4 u5
        total).range ∧
      0 ≤ (createClutterDetection max_range_km elevation_fov_deg u1 u2 u3 u4 u5
        total).azimuth ∧
      (createClutterDetection max_range_km elevation_fov_deg u1 u2 u3 u4 u5
        total).azimuth < 2 * π ∧
      -(π / 2) ≤ (createClutterDetection max_range_km elevation_fov_deg u1 u2 u3
        u4 u5 total).elevation ∧
      (createClutterDetection max_range_km elevation_fov_deg u1 u2 u3 u4 u5
        total).elevation ≤ π / 2) := by
  constructor
  · intro noise_level n1 n2 n3 n4 n5 n6 total target
    refine ⟨?_, ?_, ?_, ?_, ?_⟩
    · exact Real.sqrt_nonneg _
    · exact le_of_lt (atan2_mem_Ioc _ _).1
    · exact (atan2_mem_Ioc _ _).2
    · exact Real.neg_pi_div_two_le_arcsin _
    · exact Real.arcsin_le_pi_div_two _
  · intro maxr fov u1 u2 u3 u4 u5 total h1 h2 h3 h4 h5 h6 h7 h8
    have hpi := Real.pi_pos
    have hlo : -90 ≤ (u3 - 0.5) * fov := by nlinarith [mul_nonneg h5 h7]
    have hhi : (u3 - 0.5) * fov ≤ 90 := by
      nlinarith [mul_nonneg (by linarith : (0:ℝ) ≤ 1 - u3) h7]
    simp only [createClutterDetection]
    refine ⟨by positivity, by positivity, by nlinarith, ?_, ?_⟩
    · have := mul_le_mul_of_nonneg_right hlo hpi.le
      linarith
    · have := mul_le_mul_of_nonneg_right hhi hpi.le
      linarith

/-- Witness for C3: the clutter bounds at the concrete draws
`(max_range, fov, u1, u2, u3) = (100, 90, 1/2, 1/2, 1/2)`. -/
theorem C3_detection_invariants_witness :
    0 ≤ (createClutterDetection 100 90 (1/2) (1/2) (1/2) (1/2) (1/2) 0).range ∧
    0 ≤ (createClutterDetection 100 90 (1/2) (1/2) (1/2) (1/2) (1/2)
      0).azimuth ∧
    (createClutterDetection 100 90 (1/2) (1/2) (1/2) (1/2) (1/2) 0).azimuth
      < 2 * π ∧
    -(π / 2) ≤ (createClutterDetection 100 90 (1/2) (1/2) (1/2) (1/2) (1/2)
      0).elevation ∧
    (createClutterDetection 100 90 (1/2) (1/2) (1/2) (1/2) (1/2) 0).elevation
      ≤ π / 2 :=
  C3_detection_invariants.2 100 90 (1/2) (1/2) (1/2) (1/2) (1/2) 0
    (by norm_num) (by norm_num) (by norm_num) (by norm_num) (by norm_num)
    (by norm_num) (by norm_num) (by norm_num)

end ClaimC3

section ClaimC10

open RadarSimulator

/-- An inactive target is skipped by the update loop. -/
lemma updateTarget_inactive (dt maxr : ℝ) (t : SimulatedTarget)
    (h : t.is_active = false) : updateTarget dt maxr t = t := by
  simp [updateTarget, h]

/-- Field-level description of the update of an active target. -/
lemma updateTarget_active (dt maxr : ℝ) (t : SimulatedTarget)
    (h : t.is_active = true) :
    (updateTarget dt maxr t).position =
      t.position + t.velocity * dt + t.acceleration * (0.5 * dt * dt) ∧
    (updateTarget dt maxr t).velocity = t.velocity + t.acceleration * dt ∧
    (updateTarget dt maxr t).target_id = t.target_id ∧
    (updateTarget dt maxr t).rcs = t.rcs ∧
    ((updateTarget dt maxr t).is_active = false ↔
      maxr * 1000.0 < (t.position + t.velocity * dt +
        t.acceleration * (0.5 * dt * dt)).magnitude) := by
  have hne : ¬ (t.is_active = false) := by simp [h]
  unfold updateTarget
  rw [if_neg hne]
  refine ⟨rfl, rfl, rfl, rfl, ?_⟩
  simp only
  split_ifs with hgt
  · exact iff_of_true rfl hgt
  · rw [h]
    exact iff_of_false (by simp) hgt

/-- The update never reactivates a target. -/
lemma updateTarget_no_reactivation (dt maxr : ℝ) (t : SimulatedTarget)
    (h : (updateTarget dt maxr t).is_active = true) : t.is_active = true := by
  by_cases hact : t.is_active = false
  · rw [updateTarget_inactive dt maxr t hact] at h
    exact h
  · cases hb : t.is_active
    · exact absurd hb hact
    · rfl

/-- C10: `updateTargets` leaves inactive targets unchanged; an active target
gets position `p + v·dt + a·(0.5·dt²)` and velocity `v + a·dt`, its identity
fields are kept, and it ends inactive exactly when the new position's
magnitude exceeds `max_range_km · 1000`; no target flips from inactive to
active. -/
theorem C10_updateTargets_spec (dt max_range_km : ℝ)
    (ts : List SimulatedTarget) (i : ℕ) (h1 : i < ts.length)
    (h2 : i < (updateTargets dt max_range_km ts).length) :
    ((ts.get ⟨i, h1⟩).is_active = false →
      (updateTargets dt max_range_km ts).get ⟨i, h2⟩ = ts.get ⟨i, h1⟩) ∧
    ((ts.get ⟨i, h1⟩).is_active = true →
      ((updateTargets dt max_range_km ts).get ⟨i, h2⟩).position =
        (ts.get ⟨i, h1⟩).position + (ts.get ⟨i, h1⟩).velocity * dt +
          (ts.get ⟨i, h1⟩).acceleration * (0.5 * dt * dt) ∧
      ((updateTargets dt max_range_km ts).get ⟨i, h2⟩).velocity =
        (ts.get ⟨i, h1⟩).velocity + (ts.get ⟨i, h1⟩).acceleration * dt ∧
      ((updateTargets dt max_range_km ts).get ⟨i, h2⟩).target_id =
        (ts.get ⟨i, h1⟩).target_id ∧
      ((updateTargets dt max_range_km ts).get ⟨i, h2⟩).rcs =
        (ts.get ⟨i, h1⟩).rcs ∧
      (((updateTargets dt max_range_km ts).get ⟨i, h2⟩).is_active = false ↔
        max_range_km * 1000.0 <
          ((ts.get ⟨i, h1⟩).position + (ts.get ⟨i, h1⟩).velocity * dt +
            (ts.get ⟨i, h1⟩).acceleration * (0.5 * dt * dt)).magnitude)) ∧
    (((updateTargets dt max_range_km ts).get ⟨i, h2⟩).is_active = true →
      (ts.get ⟨i, h1⟩).is_active = true) := by
  have hmap : (updateTargets dt max_range_km ts).get ⟨i, h2⟩ =
      updateTarget dt max_range_km (ts.get ⟨i, h1⟩) := by
    simp [updateTargets]
  rw [hmap]
  refine ⟨?_, ?_, ?_⟩
  · exact updateTarget_inactive dt max_range_km (ts.get ⟨i, h1⟩)
  · exact updateTarget_active dt max_range_km (ts.get ⟨i, h1⟩)
  · exact updateTarget_no_reactivation dt max_range_km (ts.get ⟨i, h1⟩)

/-- Witness for C10: on the one-element list holding an inactive target the
update returns the target unchanged. -/
theorem C10_updateTargets_spec_witness :
    (updateTargets 1 100 [⟨7, ⟨0, 0, 0⟩, ⟨0, 0, 0⟩, ⟨0, 0, 0⟩, 1, false⟩]).get
      ⟨0, by simp [updateTargets]⟩ =
      (⟨7, ⟨0, 0, 0⟩, ⟨0, 0, 0⟩, ⟨0, 0, 0⟩, 1, false⟩ : SimulatedTarget) :=
  (C10_updateTargets_spec 1 100
    [⟨7, ⟨0, 0, 0⟩, ⟨0, 0, 0⟩, ⟨0, 0, 0⟩, 1, false⟩] 0 (by simp)
    (by simp [updateTargets])).1 rfl

end ClaimC10

section ClaimC4

/-- C4: a call to `ThreadPool::enqueue` after the stop flag is set throws
`runtime_error` and leaves the pool state — in particular the pending task
queue — unchanged; the task is never added. -/
theorem C4_enqueue_after_stop {τ : Type} (s : ThreadPool.State τ) (task : τ)
    (h : s.stop = true) :
    ThreadPool.enqueue s task = (.error (), s) := by
  simp [ThreadPool.enqueue, h]

/-- Witness for C4: the stopped pool with queue `[1, 2]` rejects task `3`
and keeps its queue. -/
theorem C4_enqueue_after_stop_witness :
    ThreadPool.enqueue (τ := ℕ) ⟨[1, 2], true⟩ 3 =
      (.error (), ⟨[1, 2], true⟩) :=
  C4_enqueue_after_stop ⟨[1, 2], true⟩ 3 rfl

end ClaimC4

section ClaimC5

/-- Invariant of the pool step relation: the executed prefix followed by the
pending queue is exactly the accepted-enqueue sequence. -/
lemma pool_executed_append_tasks (s : ThreadPool.Trace)
    (h : ThreadPool.Reach ThreadPool.initTrace s) :
    s.executed ++ s.tasks = s.enqueued := by
  induction h with
  | refl => rfl
  | tail hreach hstep ih =>
    cases hstep with
    | enqueue t hstop =>
      simp only
      rw [← List.append_assoc, ih]
    | requestStop => exact ih
    | runTask t rest hq =>
      simp only
      rw [List.append_assoc]
      simpa [hq] using ih

/-- C5: a worker thread returns only when the stop flag is set and the queue
is empty (the loop guard), and in any reachable state where that exit guard
holds, the sequence of executed tasks equals the sequence of accepted
enqueues — every task enqueued before shutdown has been executed exactly
once (and in order) by the time the destructor's `join` of that worker can
return. -/
theorem C5_shutdown_drains (s : ThreadPool.Trace)
    (hreach : ThreadPool.Reach ThreadPool.initTrace s)
    (hexit : ThreadPool.workerExits s = true) :
    s.stop = true ∧ s.tasks = [] ∧ s.executed = s.enqueued := by
  have hguard : s.stop = true ∧ s.tasks = [] := by
    have := hexit
    unfold ThreadPool.workerExits at this
    rcases Bool.and_eq_true_iff.mp this with ⟨h1, h2⟩
    exact ⟨h1, List.isEmpty_iff.mp h2⟩
  refine ⟨hguard.1, hguard.2, ?_⟩
  have hinv := pool_executed_append_tasks s hreach
  rw [hguard.2] at hinv
  simpa using hinv

/-- Witness for C5: stopping the fresh pool reaches a state where the exit
guard holds and the executed and enqueued sequences agree (both empty). -/
theorem C5_shutdown_drains_witness :
    (⟨[], true, [], []⟩ : ThreadPool.Trace).stop = true ∧
    (⟨[], true, [], []⟩ : ThreadPool.Trace).tasks = [] ∧
    (⟨[], true, [], []⟩ : ThreadPool.Trace).executed =
      (⟨[], true, [], []⟩ : ThreadPool.Trace).enqueued :=
  C5_shutdown_drains ⟨[], true, [], []⟩
    (Relation.ReflTransGen.single (ThreadPool.Step.requestStop
      ThreadPool.initTrace)) rfl

end ClaimC5

section ClaimC9

open PerformanceMonitor

/-- Entries with a different key are untouched by `setEntry`. -/
lemma lookup_setEntry_ne (name other : String) (m : PerformanceMetric)
    (ms : Metrics) (h : other ≠ name) :
    (setEntry name m ms).lookup other = ms.lookup other := by
  induction ms with
  | nil => rfl
  | cons kv rest ih =>
    obtain ⟨k, v⟩ := kv
    by_cases hk : k = name
    · subst hk
      simp only [setEntry, if_pos rfl]
      have hbeq : (other == k) = false := by
        simp [BEq.beq]
        exact h
      simp [List.lookup, hbeq]
    · simp only [setEntry, if_neg hk]
      by_cases ho : other = k
      · subst ho
        simp [List.lookup]
      · have hbeq : (other == k) = false := by
          simp [BEq.beq]
          exact ho
        simp [List.lookup, hbeq, ih]

/-- C9: `PerformanceMonitor::endTiming` on a name with no metric entry is a
no-op (the whole table is returned unchanged), and when an entry exists only
that entry is modified: the value looked up under any other name is
unchanged. -/
theorem C9_endTiming_frame (end_time : ℚ) (name : String) (ms : Metrics) :
    (ms.lookup name = none → endTiming end_time name ms = ms) ∧
    (∀ other : String, other ≠ name →
      (endTiming end_time name ms).lookup other = ms.lookup other) := by
  constructor
  · intro hnone
    simp [endTiming, hnone]
  · intro other hne
    unfold endTiming
    cases hl : ms.lookup name with
    | none => rfl
    | some m => exact lookup_setEntry_ne name other _ ms hne

/-- Witness for C9: on the table holding only `"a"`, ending the timer of the
absent name `"b"` is a no-op, and ending the timer of `"a"` leaves the
lookup of `"b"` unchanged. -/
theorem C9_endTiming_frame_witness :
    endTiming 1 ("b") [(("a"), emptyMetric)] = [(("a"), emptyMetric)] ∧
    (endTiming 1 ("a") [(("a"), emptyMetric)]).lookup ("b") =
      ([(("a"), emptyMetric)] : Metrics).lookup ("b") :=
  ⟨(C9_endTiming_frame 1 ("b") [(("a"), emptyMetric)]).1 rfl,
   (C9_endTiming_frame 1 ("a") [(("a"), emptyMetric)]).2 ("b") (by decide)⟩

end ClaimC9

section ClaimC1

open TrackManager

/-- Appending a non-TERMINATED track raises the active count by one. -/
lemma activeCount_append_one (ts : List MTrack) (t : MTrack)
    (h : t.state ≠ TrackState.TERMINATED) :
    activeCount (ts ++ [t]) = activeCount ts + 1 := by
  simp [activeCount, List.filter_append, h]

/-- The active count distributes over list append. -/
lemma activeCount_append (l1 l2 : List MTrack) :
    activeCount (l1 ++ l2) = activeCount l1 + activeCount l2 := by
  simp [activeCount, List.filter_append]

/-- C1 (spec-modelled): `TrackManager::createTrack` preserves the track cap:
if the number of non-TERMINATED tracks is at most `max_tracks` before a
birth, it still is afterwards — below the cap one TENTATIVE track is added,
at the cap a TENTATIVE track is evicted first or the birth is dropped. -/
theorem C1_track_cap (cfg : TrackManagementConfig) (s : TrackManager.State)
    (hinv : activeCount s.tracks ≤ cfg.max_tracks) :
    activeCount (createTrack cfg s).tracks ≤ cfg.max_tracks := by
  simp only [createTrack]
  by_cases hlt : activeCount s.tracks < cfg.max_tracks
  · rw [if_pos hlt]
    simp only
    rw [activeCount_append_one _ _ (by simp)]
    omega
  · rw [if_neg hlt]
    cases hmin : ((s.tracks.filter
        (fun t => t.state = TrackState.TENTATIVE)).map
          MTrack.quality_score).min? with
    | none => exact hinv
    | some q =>
      simp only
      have hqmem : q ∈ (s.tracks.filter
          (fun t => t.state = TrackState.TENTATIVE)).map MTrack.quality_score :=
        List.min?_mem (fun a b => min_choice a b) hmin
      obtain ⟨t0, ht0mem, ht0q⟩ := List.mem_map.mp hqmem
      have ht0 : t0 ∈ s.tracks ∧ t0.state = TrackState.TENTATIVE := by
        have hmem := List.mem_filter.mp ht0mem
        exact ⟨hmem.1, by simpa using hmem.2⟩
      have hp : (fun t => decide (t.state = TrackState.TENTATIVE ∧
          t.quality_score = q)) t0 = true := by
        simp [ht0.2, ht0q]
      obtain ⟨a, l1, l2, hl1, hpa, hsplit, herase⟩ :=
        List.exists_of_eraseP (p := fun t => decide
          (t.state = TrackState.TENTATIVE ∧ t.quality_score = q)) ht0.1 hp
      have ha : a.state = TrackState.TENTATIVE := (of_decide_eq_true hpa).1
      rw [herase, activeCount_append_one _ _ (by simp), activeCount_append]
      have hcount : activeCount s.tracks =
          activeCount l1 + activeCount l2 + 1 := by
        rw [hsplit, activeCount_append]
        have : activeCount (a :: l2) = activeCount l2 + 1 := by
          simp [activeCount, List.filter_cons, ha]
        omega
      omega

/-- Witness for C1: starting from the empty table with `max_tracks = 2`, a
birth keeps the active count within the cap. -/
theorem C1_track_cap_witness :
    activeCount (createTrack ⟨3, 5, 60, 1/2, 2⟩ ⟨[], 1⟩).tracks ≤ 2 :=
  C1_track_cap ⟨3, 5, 60, 1/2, 2⟩ ⟨[], 1⟩ (by simp [activeCount])

end ClaimC1

section ClaimC6

/-- C6: the process exit code is 0 on clean shutdown — including help or
version display and a passing `--validate` run — and -1 (non-zero) whenever
logging setup fails, the configuration file is unreadable, `loadConfig`
rejects it, `RadarSystem::initialize` returns false, or a fatal exception
reaches main's catch. -/
theorem C6_exit_codes :
    (∀ env : MainEnv, env.parse = ParseOutcome.helpOrVersion →
      mainExitCode env = 0) ∧
    (∀ (env : MainEnv) (dmode : Bool) (c : Yaml),
      env.parse = ParseOutcome.parsed true dmode →
      env.logging_ok = true → env.config_file_readable = true →
      env.config_parsed = some c →
      ConfigManager.loadConfig (some c) = true →
      mainValidateChecks c = true →
      mainExitCode env = 0) ∧
    (∀ (env : MainEnv) (dmode : Bool),
      env.parse = ParseOutcome.parsed false dmode →
      env.logging_ok = true → env.config_file_readable = true →
      ConfigManager.loadConfig env.config_parsed = true →
      (dmode = true → env.daemonize_ok = true) →
      env.radar_init_ok = true → env.fatal_exception = false →
      mainExitCode env = 0) ∧
    (∀ (env : MainEnv) (vmode dmode : Bool),
      env.parse = ParseOutcome.parsed vmode dmode →
      env.logging_ok = false →
      mainExitCode env = -1) ∧
    (∀ (env : MainEnv) (vmode dmode : Bool),
      env.parse = ParseOutcome.parsed vmode dmode →
      env.config_file_readable = false →
      mainExitCode env = -1) ∧
    (∀ (env : MainEnv) (vmode dmode : Bool),
      env.parse = ParseOutcome.parsed vmode dmode →
      ConfigManager.loadConfig env.config_parsed = false →
      mainExitCode env = -1) ∧
    (∀ (env : MainEnv) (dmode : Bool),
      env.parse = ParseOutcome.parsed false dmode →
      (dmode = true → env.daemonize_ok = true) →
      env.radar_init_ok = false →
      mainExitCode env = -1) ∧
    (∀ (env : MainEnv) (dmode : Bool),
      env.parse = ParseOutcome.parsed false dmode →
      (dmode = true → env.daemonize_ok = true) →
      env.fatal_exception = true →
      mainExitCode env = -1) := by
  refine ⟨?_, ?_, ?_, ?_, ?_, ?_, ?_, ?_⟩
  · intro env h
    simp [mainExitCode, h]
  · intro env dmode c hp hl hr hc hload hval
    simp [mainExitCode, hp, hl, hr, hc, hload, hval]
  · intro env dmode hp hl hr hload hdaemon hinit hfatal
    cases hc : env.config_parsed with
    | none => rw [hc] at hload; simp [ConfigManager.loadConfig] at hload
    | some c =>
      rw [hc] at hload
      cases hd : dmode with
      | false => simp [mainExitCode, hp, hl, hr, hc, hload, hinit, hfatal, hd]
      | true =>
        have hdm := hdaemon hd
        simp [mainExitCode, hp, hl, hr, hc, hload, hinit, hfatal, hd, hdm]
  · intro env vmode dmode hp hl
    simp [mainExitCode, hp, hl]
  · intro env vmode dmode hp hr
    simp only [mainExitCode, hp]
    split_ifs <;> rfl
  · intro env vmode dmode hp hload
    simp only [mainExitCode, hp, hload]
    split_ifs <;> rfl
  · intro env dmode hp hdaemon hinit
    simp only [mainExitCode, hp]
    split_ifs <;>
      first
        | rfl
        | (cases env.config_parsed <;> rfl)
        | simp_all
  · intro env dmode hp hdaemon hfatal
    simp only [mainExitCode, hp]
    split_ifs <;>
      first
        | rfl
        | (cases env.config_parsed <;> rfl)
        | simp_all

/-- Witness for C6: a fully successful run exits with code 0. -/
theorem C6_exit_codes_witness :
    mainExitCode ⟨ParseOutcome.parsed false false, true, true,
      some (Yaml.map [(("system"),
        Yaml.map [(("tracking_mode"), Yaml.scalar ("TWS")),
                  (("max_tracks"), Yaml.scalar ("100")),
                  (("update_rate_hz"), Yaml.scalar ("10"))]),
        (("algorithms"),
        Yaml.map [(("clustering"), Yaml.map []),
                  (("association"), Yaml.map []),
                  (("tracking"), Yaml.map [])]),
        (("communication"), Yaml.map [])]),
      true, true, false⟩ = 0 :=
  C6_exit_codes.2.2.1 _ false rfl rfl rfl (by rfl)
    (fun h => by cases h) rfl rfl

end ClaimC6

section ClaimC7

open ConfigManager

/-- The source's `validateConfig` agrees with the claim-side conjunction of
validity conditions on every parsed configuration. -/
lemma validateConfig_eq_spec (c : Yaml) :
    validateConfig c = validConfigSpec c := by
  unfold validateConfig validateConfigE validConfigSpec hasSections
    hasSysFields trackingModeOk hasAlgoSubs resolvesDefined
  rcases hsys : c.index ("system") with e | sys
  · simp [hsys]
  simp only [hsys]
  cases hsd : sys.defined with
  | false => simp [hsd]
  | true =>
    rcases halg : c.index ("algorithms") with e | alg
    · simp [halg]
    simp only [halg]
    cases had : alg.defined with
    | false => simp [had]
    | true =>
      rcases hcomm : c.index ("communication") with e | comm
      · simp [hcomm]
      simp only [hcomm]
      cases hcd : comm.defined with
      | false => simp [hcd]
      | true =>
        rcases htm : sys.index ("tracking_mode") with e | tm
        · simp [htm]
        simp only [htm]
        rcases hmt : sys.index ("max_tracks") with e | mt
        · simp [hmt]
        simp only [hmt]
        rcases hur : sys.index ("update_rate_hz") with e | ur
        · cases htd : tm.defined <;> cases hmd : mt.defined <;>
            simp [hur, htd, hmd]
        simp only [hur]
        cases htd : tm.defined with
        | false => simp [htd]
        | true =>
          cases hmd : mt.defined with
          | false => simp [htd, hmd]
          | true =>
            cases hud : ur.defined with
            | false => simp [htd, hmd, hud]
            | true =>
              rcases hstr : tm.asString with - | mode
              · simp [hstr]
              simp only [hstr]
              by_cases hmode : mode = "TWS" ∨ mode = "BEAM_REQUEST"
              · have hcond : ¬ (mode ≠ "TWS" ∧ mode ≠ "BEAM_REQUEST") := by
                  tauto
                rw [if_neg hcond]
                have hmodeb : (mode == "TWS" || mode == "BEAM_REQUEST") =
                    true := by
                  rcases hmode with h | h <;> simp [h]
                rcases hcl : alg.index ("clustering") with e | cl
                · simp [hcl, hmodeb]
                simp only [hcl]
                rcases hasso : alg.index ("association") with e | asso
                · simp [hasso, hmodeb]
                simp only [hasso]
                rcases htr : alg.index ("tracking") with e | tr
                · cases hcld : cl.defined <;> cases hassod : asso.defined <;>
                    simp [htr, hmodeb, hcld, hassod]
                simp only [htr]
                cases hcld : cl.defined <;> cases hassod : asso.defined <;>
                  cases htrd : tr.defined <;>
                  simp [hmodeb, hcld, hassod, htrd]
              · push_neg at hmode
                rw [if_pos hmode]
                have hmodeb : (mode == "TWS" || mode == "BEAM_REQUEST") =
                    false := by
                  simp [hmode.1, hmode.2]
                simp [hmodeb]

/-- C7: `loadConfig` (through `validateConfig`) accepts a configuration
exactly when it parses and every condition listed by the spec holds (the
required sections, the required `system` fields, a `tracking_mode` of `TWS`
or `BEAM_REQUEST`, and the required algorithm subsections); and whenever it
returns false, `main` exits with -1 without starting the system. -/
theorem C7_loadConfig_iff :
    (∀ p : Option Yaml, ConfigManager.loadConfig p = true ↔
      ∃ c, p = some c ∧ ConfigManager.validConfigSpec c = true) ∧
    (∀ (env : MainEnv) (vmode dmode : Bool),
      env.parse = ParseOutcome.parsed vmode dmode →
      ConfigManager.loadConfig env.config_parsed = false →
      mainExitCode env = -1) := by
  constructor
  · intro p
    cases p with
    | none => simp [ConfigManager.loadConfig]
    | some c => simp [ConfigManager.loadConfig, validateConfig_eq_spec c]
  · intro env vmode dmode hp hload
    simp only [mainExitCode, hp, hload]
    split_ifs <;> rfl

/-- Witness for C7: a configuration missing every section is rejected and
makes `main` exit with -1. -/
theorem C7_loadConfig_iff_witness :
    mainExitCode ⟨ParseOutcome.parsed false false, true, true,
      some (Yaml.map []), true, true, false⟩ = -1 :=
  C7_loadConfig_iff.2 ⟨ParseOutcome.parsed false false, true, true,
    some (Yaml.map []), true, true, false⟩ false false rfl rfl

end ClaimC7

section ClaimC8

open ConfigManager

/-- C8 counterexample: at key `"a"` of the config `{a: hello}` the path
resolves to a defined, non-null scalar node, yet `get<int>("a", 7)` does not
return that node's converted value — the conversion fails (`as<int>` throws
`BadConversion`) and the default 7 is returned instead. -/
theorem C8_get_counterexample :
    getValueFromPath (Yaml.map [(("a"), Yaml.scalar ("hello"))]) ("a") =
      Except.ok (Yaml.scalar ("hello")) ∧
    (Yaml.scalar ("hello")).defined = true ∧
    (Yaml.scalar ("hello")).isNull = false ∧
    Yaml.asInt (Yaml.scalar ("hello")) = none ∧
    ConfigManager.get Yaml.asInt (Yaml.map [(("a"), Yaml.scalar ("hello"))])
      ("a") 7 = 7 := by
  refine ⟨rfl, rfl, rfl, by decide, by decide⟩

/-- C8 (amended): the two-argument `ConfigManager::get` is total and returns
the default whenever the path resolution throws, the resolved node is
undefined or null, or the conversion of the resolved node fails; it returns
the converted value when the resolved node is defined, non-null, and the
conversion succeeds. -/
theorem C8_get_default_semantics {α : Type} (conv : Yaml → Option α)
    (config : Yaml) (key : String) (default_value : α) :
    (∀ e, getValueFromPath config key = .error e →
      ConfigManager.get conv config key default_value = default_value) ∧
    (∀ node, getValueFromPath config key = .ok node →
      node.defined = false ∨ node.isNull = true →
      ConfigManager.get conv config key default_value = default_value) ∧
    (∀ node, getValueFromPath config key = .ok node →
      node.defined = true → node.isNull = false → conv node = none →
      ConfigManager.get conv config key default_value = default_value) ∧
    (∀ node v, getValueFromPath config key = .ok node →
      node.defined = true → node.isNull = false → conv node = some v →
      ConfigManager.get conv config key default_value = v) := by
  refine ⟨?_, ?_, ?_, ?_⟩
  · intro e h
    simp [ConfigManager.get, h]
  · intro node h hdn
    rcases hdn with hd | hn
    · simp [ConfigManager.get, h, hd]
    · simp [ConfigManager.get, h, hn]
  · intro node h hd hn hc
    simp [ConfigManager.get, h, hd, hn, hc]
  · intro node v h hd hn hc
    simp [ConfigManager.get, h, hd, hn, hc]

/-- Witness for C8: on `{a: 5}` the lookup `get<int>("a", 7)` returns the
converted value 5. -/
theorem C8_get_default_semantics_witness :
    ConfigManager.get Yaml.asInt (Yaml.map [(("a"), Yaml.scalar ("5"))])
      ("a") 7 = 5 :=
  (C8_get_default_semantics Yaml.asInt
      (Yaml.map [(("a"), Yaml.scalar ("5"))]) ("a") 7).2.2.2
    (Yaml.scalar ("5")) 5 rfl rfl rfl (by decide)

end ClaimC8

end radar_tracking
